import Mathlib

/-!
Verification of the LCP (FARSITE v.4 landscape file) header codec and band
classifier from `frmts/raw/lcpdataset.cpp`.

The file model is byte-level: a file is a total function from byte offset to
byte value, and a write run is a list of (offset, bytes) operations applied in
program order, mirroring the sequential VSIFWriteL/VSIFSeekL calls of
`LCPDataset::CreateCopy`.  Little-endian 16/32-bit integers and 64-bit IEEE
double bit patterns are encoded and decoded exactly as the C code's
CPL_LSBPTR/CPL_LSBSINT32PTR accessors do (doubles are carried as opaque 64-bit
patterns, since the codec only memcpy's them).
-/

namespace LCP

/-- A file: byte value at each offset.  A fresh file created with "wb" reads
as zero at every unwritten offset (holes read back as zero bytes). -/
def zeroFile : Nat → Nat := fun _ => 0

/-- Write a run of bytes at consecutive offsets, as one VSIFWriteL call. -/
def writeBytes : (Nat → Nat) → Nat → List Nat → (Nat → Nat)
  | f, _, [] => f
  | f, off, b :: bs => writeBytes (fun o => if o = off then b else f o) (off + 1) bs

theorem writeBytes_lt {f : Nat → Nat} {off : Nat} {bs : List Nat} {o : Nat}
    (h : o < off) : writeBytes f off bs o = f o := by
  induction bs generalizing f off with
  | nil => rfl
  | cons b bs ih =>
    rw [writeBytes, ih (by omega)]
    have hne : o ≠ off := by omega
    simp [hne]

theorem writeBytes_ge {f : Nat → Nat} {off : Nat} {bs : List Nat} {o : Nat}
    (h : off + bs.length ≤ o) : writeBytes f off bs o = f o := by
  induction bs generalizing f off with
  | nil => rfl
  | cons b bs ih =>
    rw [writeBytes, ih (by simp at h; omega)]
    have hne : o ≠ off := by simp at h; omega
    simp [hne]

theorem writeBytes_inside {f : Nat → Nat} {off : Nat} {bs : List Nat} {k : Nat}
    (hk : k < bs.length) : writeBytes f off bs (off + k) = bs.getD k 0 := by
  induction bs generalizing f off k with
  | nil => simp at hk
  | cons b bs ih =>
    cases k with
    | zero =>
      rw [writeBytes]
      have h0 : off + 0 = off := by omega
      rw [h0, writeBytes_lt (by omega)]
      simp
    | succ k =>
      rw [writeBytes]
      have h1 : off + (k + 1) = (off + 1) + k := by omega
      rw [h1, ih (by simp at hk; omega)]
      simp

/-- Apply a list of write operations in program order. -/
def applyOps : (Nat → Nat) → List (Nat × List Nat) → (Nat → Nat)
  | f, [] => f
  | f, (off, bs) :: rest => applyOps (writeBytes f off bs) rest

theorem applyOps_append (f : Nat → Nat) (l1 l2 : List (Nat × List Nat)) :
    applyOps f (l1 ++ l2) = applyOps (applyOps f l1) l2 := by
  induction l1 generalizing f with
  | nil => rfl
  | cons op rest ih =>
    obtain ⟨off, bs⟩ := op
    simp [applyOps, ih]

theorem applyOps_pt {f : Nat → Nat} {ops : List (Nat × List Nat)} {o : Nat}
    (h : ∀ op ∈ ops, o < op.1 ∨ op.1 + op.2.length ≤ o) : applyOps f ops o = f o := by
  induction ops generalizing f with
  | nil => rfl
  | cons op rest ih =>
    obtain ⟨off, bs⟩ := op
    rw [applyOps, ih (fun op hop => h op (by simp [hop]))]
    rcases h (off, bs) (by simp) with hlt | hge
    · exact writeBytes_lt hlt
    · exact writeBytes_ge hge

/-! Little-endian integer codecs, mirroring CPL_LSBPTR32 / CPL_LSBSINT32PTR /
CPL_LSBUINT16PTR and the raw 8-byte memcpy of doubles. -/

/-- Two's-complement 32-bit pattern of a C `GInt32`. -/
def toU32 (v : Int) : Nat := (v % 4294967296).toNat

def le32 (v : Int) : List Nat :=
  [toU32 v % 256, toU32 v / 256 % 256, toU32 v / 65536 % 256, toU32 v / 16777216 % 256]

def le16i (v : Int) : List Nat :=
  [(v % 65536).toNat % 256, (v % 65536).toNat / 256 % 256]

def le64p (p : Nat) : List Nat :=
  [p % 256, p / 256 % 256, p / 65536 % 256, p / 16777216 % 256,
   p / 4294967296 % 256, p / 1099511627776 % 256,
   p / 281474976710656 % 256, p / 72057594037927936 % 256]

@[simp] theorem le32_length (v : Int) : (le32 v).length = 4 := rfl
@[simp] theorem le16i_length (v : Int) : (le16i v).length = 2 := rfl
@[simp] theorem le64p_length (p : Nat) : (le64p p).length = 8 := rfl

def readU32 (f : Nat → Nat) (o : Nat) : Nat :=
  f o + 256 * f (o + 1) + 65536 * f (o + 2) + 16777216 * f (o + 3)

/-- Signed little-endian 32-bit read (CPL_LSBSINT32PTR). -/
def readS32 (f : Nat → Nat) (o : Nat) : Int :=
  if readU32 f o < 2147483648 then (readU32 f o : Int) else (readU32 f o : Int) - 4294967296

def readU16 (f : Nat → Nat) (o : Nat) : Nat := f o + 256 * f (o + 1)

/-- Raw 64-bit little-endian pattern read (the memcpy of a double). -/
def readP64 (f : Nat → Nat) (o : Nat) : Nat :=
  f o + 256 * f (o + 1) + 65536 * f (o + 2) + 16777216 * f (o + 3) +
  4294967296 * f (o + 4) + 1099511627776 * f (o + 5) +
  281474976710656 * f (o + 6) + 72057594037927936 * f (o + 7)

theorem toU32_lt (v : Int) : toU32 v < 4294967296 := by
  unfold toU32; omega

theorem readU32_write (f : Nat → Nat) (off : Nat) (v : Int) :
    readU32 (writeBytes f off (le32 v)) off = toU32 v := by
  have b0 : writeBytes f off (le32 v) off = toU32 v % 256 := by
    have := @writeBytes_inside f off (le32 v) 0 (by simp)
    simpa using this
  have b1 : writeBytes f off (le32 v) (off + 1) = toU32 v / 256 % 256 :=
    writeBytes_inside (by simp)
  have b2 : writeBytes f off (le32 v) (off + 2) = toU32 v / 65536 % 256 :=
    writeBytes_inside (by simp)
  have b3 : writeBytes f off (le32 v) (off + 3) = toU32 v / 16777216 % 256 :=
    writeBytes_inside (by simp)
  rw [readU32, b0, b1, b2, b3]
  have := toU32_lt v
  omega

theorem readS32_write (f : Nat → Nat) (off : Nat) (v : Int)
    (h1 : -2147483648 ≤ v) (h2 : v < 2147483648) :
    readS32 (writeBytes f off (le32 v)) off = v := by
  rw [readS32, readU32_write]
  unfold toU32
  split <;> omega

theorem readP64_write (f : Nat → Nat) (off : Nat) (p : Nat)
    (hp : p < 18446744073709551616) :
    readP64 (writeBytes f off (le64p p)) off = p := by
  have b0 : writeBytes f off (le64p p) off = p % 256 := by
    have := @writeBytes_inside f off (le64p p) 0 (by simp)
    simpa using this
  have b1 : writeBytes f off (le64p p) (off + 1) = p / 256 % 256 :=
    writeBytes_inside (by simp)
  have b2 : writeBytes f off (le64p p) (off + 2) = p / 65536 % 256 :=
    writeBytes_inside (by simp)
  have b3 : writeBytes f off (le64p p) (off + 3) = p / 16777216 % 256 :=
    writeBytes_inside (by simp)
  have b4 : writeBytes f off (le64p p) (off + 4) = p / 4294967296 % 256 :=
    writeBytes_inside (by simp)
  have b5 : writeBytes f off (le64p p) (off + 5) = p / 1099511627776 % 256 :=
    writeBytes_inside (by simp)
  have b6 : writeBytes f off (le64p p) (off + 6) = p / 281474976710656 % 256 :=
    writeBytes_inside (by simp)
  have b7 : writeBytes f off (le64p p) (off + 7) = p / 72057594037927936 % 256 :=
    writeBytes_inside (by simp)
  rw [readP64, b0, b1, b2, b3, b4, b5, b6, b7]
  omega

theorem readU16_inside (f : Nat → Nat) (off : Nat) (bs : List Nat) (k : Nat)
    (hk : k + 1 < bs.length) :
    readU16 (writeBytes f off bs) (off + k) = bs.getD k 0 + 256 * bs.getD (k + 1) 0 := by
  rw [readU16, writeBytes_inside (by omega)]
  have h1 : off + k + 1 = off + (k + 1) := by omega
  rw [h1, writeBytes_inside hk]

/-! ## Classifier: `LCPDataset::ClassifyBandData`

The C code keeps a presence bitmap `pabyFlags` over the whole GInt16 domain
(index = pixel value + 32768) plus a running count `nFound`.  Pixels equal to
the hard-coded -9999 sentinel are skipped.  If `nFound` already equals
LCP_MAX_CLASSES (= 100) when another non-sentinel pixel is seen, the scan
aborts and reports -1.  Otherwise the output is a leading 0 followed, in
ascending flag-index order, by `panClasses[nIndex++] = j` — i.e. the raw flag
index `j = value + 32768` (the code does not subtract the offset back).

The bitmap is modelled as an ascending sorted list of the flagged pixel
values (`insertAsc` keeps it sorted, so emitting the flagged indices in
ascending `j` order is `flags.map (· + 32768)`). -/

def insertAsc (x : Int) : List Int → List Int
  | [] => [x]
  | y :: ys => if x ≤ y then x :: y :: ys else y :: insertAsc x ys

/-- The pixel scan of ClassifyBandData: walks the band values in row-major
order carrying the flagged-value set and the running count; `none` is the
"too many unique values" abort. -/
def scanPixels : List Int → List Int → Nat → Option (List Int × Nat)
  | [], flags, found => some (flags, found)
  | v :: rest, flags, found =>
    if v = -9999 then scanPixels rest flags found
    else if found = 100 then none
    else if v ∈ flags then scanPixels rest flags found
    else scanPixels rest (insertAsc v flags) (found + 1)

/-- ClassifyBandData's observable result: the reported class count
(`nNumClasses`) and the sequence of class entries actually written to
`panClasses` (leading 0 sentinel, then the flagged indices `j` in ascending
order; nothing is written on the too-many abort). -/
def classifyBandData (data : List Int) : Int × List Int :=
  match scanPixels data [] 0 with
  | none => (-1, [])
  | some (flags, found) => ((found : Int), 0 :: flags.map (fun v => v + 32768))

theorem scanPixels_filter (data : List Int) :
    ∀ flags found,
      scanPixels (data.filter (fun v => v != -9999)) flags found =
        scanPixels data flags found := by
  induction data with
  | nil => intro flags found; rfl
  | cons v rest ih =>
    intro flags found
    by_cases hv : v = -9999
    · subst hv
      simp only [List.filter_cons]
      norm_num [scanPixels, ih]
    · have hb : (v != -9999) = true := by simpa using hv
      simp only [List.filter_cons, hb, if_true]
      rw [scanPixels, scanPixels]
      simp only [hv, if_false]
      split
      · rfl
      · split
        · exact ih flags found
        · exact ih (insertAsc v flags) (found + 1)

/-! ## Decoder: `LCPDataset::Identify` / `LCPDataset::Open`

`Identify` requires at least 50 header bytes, both feature-flag int32 fields
in {20, 21}, and the latitude int32 at offset 8 in [-90, 90].  `Open` then
requires the full 7316-byte header, positive raster dimensions
(GDALCheckDatasetDimensions), and `nWidth ≤ INT_MAX / (nBands * 2)`.
Environmental conditions (the ".lcp" filename extension and read-only access
mode) are outside the byte-content model. -/

structure LCPInfo where
  crown : Bool
  ground : Bool
  nBands : Nat
  latitude : Int
  linearUnit : Int
  width : Int
  height : Int
  eastP : Nat
  westP : Nat
  northP : Nat
  southP : Nat
  cellXP : Nat
  cellYP : Nat
  unitCodes : List Nat
deriving DecidableEq

def lcpIdentify (f : Nat → Nat) (size : Nat) : Bool :=
  decide (50 ≤ size) &&
  (readS32 f 0 == 20 || readS32 f 0 == 21) &&
  (readS32 f 4 == 20 || readS32 f 4 == 21) &&
  decide (-90 ≤ readS32 f 8) && decide (readS32 f 8 ≤ 90)

/-- The band count determined by the two feature-flag fields
(`bHaveCrownFuels` / `bHaveGroundFuels` in Open). -/
def lcpBands (f : Nat → Nat) : Nat :=
  if !(readS32 f 0 == 20) then (if !(readS32 f 4 == 20) then 10 else 8)
  else (if !(readS32 f 4 == 20) then 7 else 5)

/-- `LCPDataset::Open` on the byte content of a file of the given size.  The
decoded fields are the ones Open surfaces: feature flags, band count,
LATITUDE and LINEAR_UNIT metadata, raster size, the geotransform doubles
(east/west/north/south at 4172..4203, cell sizes at 4208/4216, as raw 64-bit
patterns) and the ten per-band unit/option 16-bit codes at 4224..4243 (Open
reads, per band present, exactly the slot for that band; all ten slots live
at these fixed offsets). -/
def lcpOpen (f : Nat → Nat) (size : Nat) : Option LCPInfo :=
  if !lcpIdentify f size then none
  else if size < 7316 then none
  else if readS32 f 4164 < 1 ∨ readS32 f 4168 < 1 then none
  else if 2147483647 / (2 * (lcpBands f : Int)) < readS32 f 4164 then none
  else some (LCPInfo.mk (!(readS32 f 0 == 20)) (!(readS32 f 4 == 20)) (lcpBands f)
      (readS32 f 8) (readS32 f 4204)
      (readS32 f 4164) (readS32 f 4168)
      (readP64 f 4172) (readP64 f 4180) (readP64 f 4188) (readP64 f 4196)
      (readP64 f 4208) (readP64 f 4216)
      [readU16 f 4224, readU16 f 4226, readU16 f 4228, readU16 f 4230, readU16 f 4232,
       readU16 f 4234, readU16 f 4236, readU16 f 4238, readU16 f 4240, readU16 f 4242])

set_option maxRecDepth 10000

/-- C3: the claim says the classifier stops the moment the running count of
distinct non-no-data values would exceed 99, so that a returned non-negative
count is never greater than 99.  The code violates this: the abort test
`nFound == LCP_MAX_CLASSES` (100) fires only when a further non-sentinel
pixel is seen after 100 distinct values were already recorded, so a band with
exactly 100 distinct values returns count = 100 (and writes a 101-entry class
sequence into the 100-slot array) — contradicting the function's own comment
"store 99 or fewer unique values; if there are more than 99 unique values,
set pnNumClasses to -1".  This theorem evaluates the code model at that
failing input, and also checks the two claim instances that do hold
(150 distinct values give -1; 99 distinct values give 99 with a 100-entry
sequence). -/
theorem claim_C3 :
    (classifyBandData ((List.range 100).map (fun n => (n : Int)))).1 = 100 ∧
    (classifyBandData ((List.range 150).map (fun n => (n : Int)))).1 = -1 ∧
    (classifyBandData ((List.range 99).map (fun n => (n : Int)))).1 = 99 ∧
    (classifyBandData ((List.range 99).map (fun n => (n : Int)))).2.length = 100 := by
  refine ⟨by decide, by decide, by decide, by decide⟩

/-- C4: the claim says the class sequence is the leading zero sentinel
followed by the distinct pixel values "offset back into the original signed
16-bit domain" in ascending order.  The code writes `panClasses[nIndex++] = j`
where `j` is the bitmap index (pixel value + 32768), never subtracting the
offset back: a band containing the single value 5 yields the entry 32773
instead of 5.  (Open itself expects class entries comparable with the stored
min/max statistics — see the FUEL_MODEL_VALUES filter — so the shifted values
contradict the decoder.)  The no-data-exclusion part of the claim does hold:
an all-sentinel band yields count 0 and the single-entry sequence [0]. -/
theorem claim_C4 :
    classifyBandData [5, -9999] = (1, [0, 32773]) ∧
    classifyBandData [-9999, -9999, -9999] = (0, [0]) := by
  refine ⟨by decide, by decide⟩

/-- C9: the no-data sentinel excluded by the classifier is the fixed value
-9999 (hard-coded, independent of any declared band no-data value): removing
exactly the -9999 pixels from a band never changes the classifier's result,
and every other value — zero and negatives included — participates
(e.g. a band [0, -5] classifies both values). -/
theorem claim_C9 (data : List Int) :
    classifyBandData (data.filter (fun v => v != -9999)) = classifyBandData data ∧
    classifyBandData [0, -5] = (2, [0, 32763, 32768]) := by
  constructor
  · rw [classifyBandData, classifyBandData, scanPixels_filter]
  · decide

theorem lcpIdentify_iff (f : Nat → Nat) (s : Nat) :
    lcpIdentify f s = true ↔
      (50 ≤ s ∧ (readS32 f 0 = 20 ∨ readS32 f 0 = 21) ∧
       (readS32 f 4 = 20 ∨ readS32 f 4 = 21) ∧
       -90 ≤ readS32 f 8 ∧ readS32 f 8 ≤ 90) := by
  simp [lcpIdentify, and_assoc]

/-- C2: for every header accepted by Open, the decoded band count is
determined by the two feature flags exactly as (crown absent, ground absent)
→ 5, (absent, present) → 7, (present, absent) → 8, (present, present) → 10,
and no other band count ever results. -/
theorem claim_C2 (f : Nat → Nat) (s : Nat) (info : LCPInfo)
    (h : lcpOpen f s = some info) :
    (info.crown = false → info.ground = false → info.nBands = 5) ∧
    (info.crown = false → info.ground = true → info.nBands = 7) ∧
    (info.crown = true → info.ground = false → info.nBands = 8) ∧
    (info.crown = true → info.ground = true → info.nBands = 10) ∧
    (info.nBands = 5 ∨ info.nBands = 7 ∨ info.nBands = 8 ∨ info.nBands = 10) := by
  unfold lcpOpen at h
  split at h
  · simp at h
  · split at h
    · simp at h
    · split at h
      · simp at h
      · split at h
        · simp at h
        · cases h
          unfold lcpBands
          by_cases h0 : readS32 f 0 = 20 <;> by_cases h4 : readS32 f 4 = 20 <;>
            simp [h0, h4]

/-- A minimal well-formed 5-band LCP header image: flags 20/20, latitude 0,
1x1 raster. -/
def fC2 : Nat → Nat :=
  applyOps zeroFile [(0, le32 20), (4, le32 20), (8, le32 0), (4164, le32 1), (4168, le32 1)]

def infoC2 : LCPInfo :=
  LCPInfo.mk false false 5 0 0 1 1 0 0 0 0 0 0 [0, 0, 0, 0, 0, 0, 0, 0, 0, 0]

/-- Witness for C2 at the concrete 5-band header `fC2`. -/
theorem claim_C2_witness :
    infoC2.nBands = 5 ∨ infoC2.nBands = 7 ∨ infoC2.nBands = 8 ∨ infoC2.nBands = 10 :=
  (claim_C2 fC2 7316 infoC2 (by decide)).2.2.2.2

/-- C10: beyond the documented decode failure conditions, Open rejects any
file whose 32-bit latitude field at offset 8 lies outside [-90, 90], and any
file shorter than 50 header bytes; hence every successfully opened dataset
reports a LATITUDE metadata value in [-90, 90]. -/
theorem claim_C10 :
    (∀ f s info, lcpOpen f s = some info → -90 ≤ info.latitude ∧ info.latitude ≤ 90) ∧
    (∀ (f : Nat → Nat) (s : Nat), (readS32 f 8 < -90 ∨ 90 < readS32 f 8) → lcpOpen f s = none) ∧
    (∀ (f : Nat → Nat) (s : Nat), s < 50 → lcpOpen f s = none) := by
  refine ⟨?_, ?_, ?_⟩
  · intro f s info h
    unfold lcpOpen at h
    split at h
    · simp at h
    · rename_i hcond
      have hid := (lcpIdentify_iff f s).mp (by revert hcond; cases lcpIdentify f s <;> simp)
      split at h
      · simp at h
      · split at h
        · simp at h
        · split at h
          · simp at h
          · cases h; exact ⟨hid.2.2.2.1, hid.2.2.2.2⟩
  · intro f s hlat
    have hid : lcpIdentify f s = false := by
      rcases hlat with h | h
      · simp [lcpIdentify, show ¬(-90 ≤ readS32 f 8) by omega]
      · simp [lcpIdentify, show ¬(readS32 f 8 ≤ 90) by omega]
    unfold lcpOpen
    rw [hid]
    simp
  · intro f s hs
    have hid : lcpIdentify f s = false := by
      simp [lcpIdentify, show ¬(50 ≤ s) by omega]
    unfold lcpOpen
    rw [hid]
    simp

/-- A header valid except for out-of-range latitude 91. -/
def fC10bad : Nat → Nat := applyOps zeroFile [(8, le32 91)]

/-- A well-formed 5-band header with latitude 89. -/
def fC10ok : Nat → Nat :=
  applyOps zeroFile [(0, le32 20), (4, le32 20), (8, le32 89), (4164, le32 1), (4168, le32 1)]

def infoC10 : LCPInfo :=
  LCPInfo.mk false false 5 89 0 1 1 0 0 0 0 0 0 [0, 0, 0, 0, 0, 0, 0, 0, 0, 0]

/-- Witness for C10 at concrete inputs. -/
theorem claim_C10_witness :
    (-90 ≤ infoC10.latitude ∧ infoC10.latitude ≤ 90) ∧
    lcpOpen fC10bad 7316 = none ∧ lcpOpen zeroFile 10 = none :=
  ⟨claim_C10.1 fC10ok 7316 infoC10 (by decide),
   claim_C10.2.1 fC10bad 7316 (by decide),
   claim_C10.2.2 zeroFile 10 (by decide)⟩

/-- The failure condition of `lcpOpen` over the byte content: the claim C5's
conditions (short input, bad feature flags, non-positive dimensions,
per-row byte-size overflow) plus the latitude-range condition that the claim
omits. -/
def openFailCond (f : Nat → Nat) (s : Nat) : Prop :=
  s < 7316 ∨
  ¬(readS32 f 0 = 20 ∨ readS32 f 0 = 21) ∨
  ¬(readS32 f 4 = 20 ∨ readS32 f 4 = 21) ∨
  readS32 f 8 < -90 ∨ 90 < readS32 f 8 ∨
  readS32 f 4164 < 1 ∨ readS32 f 4168 < 1 ∨
  2147483647 / (2 * (lcpBands f : Int)) < readS32 f 4164

/-- A header satisfying every condition listed by claim C5 (valid flags,
full size, positive dims, no overflow) whose latitude field is 100. -/
def fC5 : Nat → Nat :=
  applyOps zeroFile [(0, le32 20), (4, le32 20), (8, le32 100), (4164, le32 1), (4168, le32 1)]

/-- C5 counterexample: the claim says Open fails *exactly when* the input is
short, has bad feature flags, or bad/overflowing dimensions.  The file `fC5`
violates none of those conditions, yet Open rejects it (its latitude field is
100, outside [-90, 90]). -/
theorem claim_C5_cex :
    lcpOpen fC5 7316 = none ∧
    ¬((7316 : Nat) < 7316 ∨
      ¬(readS32 fC5 0 = 20 ∨ readS32 fC5 0 = 21) ∨
      ¬(readS32 fC5 4 = 20 ∨ readS32 fC5 4 = 21) ∨
      readS32 fC5 4164 < 1 ∨ readS32 fC5 4168 < 1 ∨
      2147483647 / (2 * (lcpBands fC5 : Int)) < readS32 fC5 4164) := by
  refine ⟨by decide, by decide⟩

/-- C5 (amended): Open fails exactly when the header bytes are short of the
mandatory 7316 (including the sub-50-byte Identify cutoff), a feature-flag
field is outside {20, 21}, the 32-bit latitude at offset 8 is outside
[-90, 90], a declared dimension is non-positive, or the declared width
exceeds INT_MAX divided by the per-pixel byte size. -/
theorem claim_C5 (f : Nat → Nat) (s : Nat) :
    lcpOpen f s = none ↔ openFailCond f s := by
  constructor
  · intro h
    by_contra hc
    unfold openFailCond at hc
    push_neg at hc
    obtain ⟨hs, hf0, hf4, hlat1, hlat2, hw, hh, hov⟩ := hc
    have hid : lcpIdentify f s = true := by
      rw [lcpIdentify_iff]
      refine ⟨by omega, by tauto, by tauto, by omega, by omega⟩
    unfold lcpOpen at h
    split at h
    · rename_i hcond; rw [hid] at hcond; simp at hcond
    · split at h
      · omega
      · split at h
        · rename_i hcond; rcases hcond with hc1 | hc1 <;> omega
        · split at h
          · omega
          · simp at h
  · intro h
    unfold lcpOpen
    split
    · rfl
    · rename_i hid
      have hid2 := (lcpIdentify_iff f s).mp (by revert hid; cases lcpIdentify f s <;> simp)
      split
      · rfl
      · split
        · rfl
        · split
          · rfl
          · rename_i hs hdims hov
            exfalso
            unfold openFailCond at h
            rcases h with h | h | h | h | h | h | h | h
            · omega
            · exact h hid2.2.1
            · exact h hid2.2.2.1
            · omega
            · omega
            · exact hdims (Or.inl h)
            · exact hdims (Or.inr h)
            · exact hov h

/-! ## Writer: `LCPDataset::CreateCopy`

The inputs of CreateCopy that matter to the header are captured in
`CreateArgs`: the source band count, data type and dimensions, the creation
option strings (absent options take the documented defaults), the external
collaborators (spatial reference presence, its UNIT name/scale attribute, the
EPSG:4269 coordinate transformation), the per-band statistics produced by
GetStatistics/ClassifyBandData, the source file list, and the computed
geotransform doubles as opaque 64-bit patterns (east = gt0 + gt1*xsize,
west = gt0, north = gt3, south = gt3 + gt5*ysize, xres = gt1,
yres = fabs(gt5) — CreateCopy stores the identical computed value at both
write sites of each double, so the patterns are single inputs here).

Validation (everything before `VSIFOpenL`) is `validate`; on success `encode`
produces the header write operations in program order together with the
cursor positions at the two CPLAssert checkpoints. -/

structure CreateArgs where
  nBands : Nat
  srcIsInt16 : Bool
  strict : Bool
  width : Int
  height : Int
  eastP : Nat
  westP : Nat
  northP : Nat
  southP : Nat
  cellXP : Nat
  cellYP : Nat
  elevationUnit : Option String
  slopeUnit : Option String
  aspectUnit : Option String
  fuelModelOption : Option String
  canopyCovUnit : Option String
  canopyHtUnit : Option String
  cbhUnit : Option String
  cbdUnit : Option String
  duffUnit : Option String
  linearUnit : Option String
  latitudeOpt : Option Int
  calculateStats : Bool
  classifyData : Bool
  srsPresent : Bool
  srsUnitName : Option String
  srsScaleOne : Option Bool
  ctransform : Option (Option Int)
  bandMin : Nat → Int
  bandMax : Nat → Int
  bandFound : Nat → Int
  bandClasses : Nat → Nat → Int
  fileList : Option (List Nat)
  description : List Nat

/-- `bHaveCrownFuels = nBands == 8 || nBands == 10`. -/
def crownOf (n : Nat) : Bool := n == 8 || n == 10

/-- `bHaveGroundFuels = nBands == 7 || nBands == 10`. -/
def groundOf (n : Nat) : Bool := n == 7 || n == 10

/-- ASCII upper-casing of one character. -/
def upChar (c : Char) : Char :=
  if 97 ≤ c.toNat ∧ c.toNat ≤ 122 then Char.ofNat (c.toNat - 32) else c

/-- ASCII upper-casing of a string. -/
def upStr (s : String) : String := String.mk (s.data.map upChar)

/-- CPL `EQUAL`: case-insensitive string equality. -/
def eqCI (a b : String) : Bool := upStr a == upStr b

/-- CPL `STARTS_WITH_CI` with an upper-case pattern. -/
def startsCI (a b : String) : Bool := (upStr b).data.isPrefixOf (upStr a).data

def parseElevationUnit (s : String) : Option Int :=
  if startsCI s "METER" then some 0
  else if eqCI s "FEET" || eqCI s "FOOT" then some 1
  else none

def parseSlopeUnit (s : String) : Option Int :=
  if eqCI s "DEGREES" then some 0
  else if eqCI s "PERCENT" then some 1
  else none

def parseAspectUnit (s : String) : Option Int :=
  if eqCI s "GRASS_CATEGORIES" then some 0
  else if eqCI s "GRASS_DEGREES" then some 1
  else if eqCI s "AZIMUTH_DEGREES" then some 2
  else none

def parseFuelModelOption (s : String) : Option Int :=
  if eqCI s "NO_CUSTOM_AND_NO_FILE" then some 0
  else if eqCI s "CUSTOM_AND_NO_FILE" then some 1
  else if eqCI s "NO_CUSTOM_AND_FILE" then some 2
  else if eqCI s "CUSTOM_AND_FILE" then some 3
  else none

def parseCanopyCovUnit (s : String) : Option Int :=
  if eqCI s "CATEGORIES" then some 0
  else if eqCI s "PERCENT" then some 1
  else none

def parseCanopyHtUnit (s : String) : Option Int :=
  if eqCI s "METERS" || eqCI s "METER" then some 1
  else if eqCI s "FEET" || eqCI s "FOOT" then some 2
  else if eqCI s "METERS_X_10" || eqCI s "METER_X_10" then some 3
  else if eqCI s "FEET_X_10" || eqCI s "FOOT_X_10" then some 4
  else none

def parseCbhUnit (s : String) : Option Int :=
  if eqCI s "METERS" || eqCI s "METER" then some 1
  else if eqCI s "FEET" || eqCI s "FOOT" then some 2
  else if eqCI s "METERS_X_10" || eqCI s "METER_X_10" then some 3
  else if eqCI s "FEET_X_10" || eqCI s "FOOT_X_10" then some 4
  else none

def parseCbdUnit (s : String) : Option Int :=
  if eqCI s "KG_PER_CUBIC_METER" then some 1
  else if eqCI s "POUND_PER_CUBIC_FOOT" then some 2
  else if eqCI s "KG_PER_CUBIC_METER_X_100" then some 3
  else if eqCI s "POUND_PER_CUBIC_FOOT_X_1000" then some 4
  else none

def parseDuffUnit (s : String) : Option Int :=
  if eqCI s "MG_PER_HECTARE_X_10" then some 1
  else if eqCI s "TONS_PER_ACRE_X_10" then some 2
  else none

/-- The per-band unit/option code checks of CreateCopy.  The defaults are the
`panMetadata` initial values [0,0,2,0,1,3,3,3,1,0]; crown-fuel options are
consulted only when crown fuels are present, DUFF_UNIT only when ground fuels
are present, and then CWD_OPTION is forced to 1. -/
def validateUnits (a : CreateArgs) (crown ground : Bool) : Option (List Int) :=
  match parseElevationUnit (a.elevationUnit.getD "METERS") with
  | none => none
  | some m0 =>
  match parseSlopeUnit (a.slopeUnit.getD "DEGREES") with
  | none => none
  | some m1 =>
  match parseAspectUnit (a.aspectUnit.getD "AZIMUTH_DEGREES") with
  | none => none
  | some m2 =>
  match parseFuelModelOption (a.fuelModelOption.getD "NO_CUSTOM_AND_NO_FILE") with
  | none => none
  | some m3 =>
  match parseCanopyCovUnit (a.canopyCovUnit.getD "PERCENT") with
  | none => none
  | some m4 =>
  match (if crown then parseCanopyHtUnit (a.canopyHtUnit.getD "METERS_X_10") else some 3) with
  | none => none
  | some m5 =>
  match (if crown then parseCbhUnit (a.cbhUnit.getD "METERS_X_10") else some 3) with
  | none => none
  | some m6 =>
  match (if crown then parseCbdUnit (a.cbdUnit.getD "KG_PER_CUBIC_METER_X_100") else some 3) with
  | none => none
  | some m7 =>
  match (if ground then parseDuffUnit (a.duffUnit.getD "MG_PER_HECTARE_X_10") else some 1) with
  | none => none
  | some m8 =>
    some [m0, m1, m2, m3, m4, m5, m6, m7, m8, if ground then 1 else 0]

/-- The written 32-bit latitude value.  When LATITUDE is supplied, it is
validated against [-90, 90] and written as `GInt32(n + 0.5)` (for an integer
n this truncates to n when 0 ≤ n and to n + 1 when n < 0).  Otherwise it is
derived through the collaborators: no spatial reference is fatal; a
constructed transformation that reports failure is fatal; a transformation
that cannot even be constructed (OGRCreateCoordinateTransformation returning
null) silently leaves the latitude 0.0. -/
def resolveLatitude (a : CreateArgs) : Option Int :=
  match a.latitudeOpt with
  | some n =>
    if 90 < n ∨ n < -90 then none
    else some (if 0 ≤ n then n else n + 1)
  | none =>
    if a.srsPresent then
      match a.ctransform with
      | none => some 0
      | some none => none
      | some (some v) => some v
    else none

/-- The written linear-unit code.  LINEAR_UNIT defaults to SET_FROM_SRS; an
unrecognised option string silently leaves the code 0.  Under SET_FROM_SRS,
a missing spatial reference or a missing UNIT attribute is fatal in strict
mode and defaults to meters (0) with a warning otherwise; an unrecognised
UNIT name keeps 0; a UNIT scale other than 1.0 is fatal in strict mode. -/
def resolveLinearUnits (a : CreateArgs) : Option Int :=
  let s := a.linearUnit.getD "SET_FROM_SRS"
  let bSet := eqCI s "SET_FROM_SRS"
  let n0 : Int :=
    if bSet then 0
    else if startsCI s "METER" then 0
    else if eqCI s "FOOT" || eqCI s "FEET" then 1
    else if startsCI s "KILOMETER" then 2
    else 0
  if bSet && a.srsPresent then
    match a.srsUnitName with
    | none => if a.strict then none else some 0
    | some u =>
      let n1 : Int :=
        if eqCI u "METER" || eqCI u "METRE" then 0
        else if eqCI u "FEET" || eqCI u "FOOT" then 1
        else if startsCI u "KILOMET" then 2
        else if a.strict then 0 else n0
      match a.srsScaleOne with
      | none => some n1
      | some true => some n1
      | some false => if a.strict then none else some n1
  else if bSet then (if a.strict then none else some 0)
  else some n0

structure Config where
  codes : List Int
  latW : Int
  lu : Int
  stats : Bool

/-- All of CreateCopy's validation, in program order, up to the point where
the output file is opened: band count in {5,7,8,10}, 16-bit source type
(fatal only in strict mode), the unit/option codes, the latitude and the
linear-unit resolution.  `stats` is the effective CALCULATE_STATS after the
override by CLASSIFY_DATA. -/
def validate (a : CreateArgs) : Option Config :=
  if !(a.nBands == 5 || a.nBands == 7 || a.nBands == 8 || a.nBands == 10) then none
  else if !a.srcIsInt16 && a.strict then none
  else
    match validateUnits a (crownOf a.nBands) (groundOf a.nBands) with
    | none => none
    | some codes =>
      match resolveLatitude a with
      | none => none
      | some latW =>
        match resolveLinearUnits a with
        | none => none
        | some lu => some (Config.mk codes latW lu (a.calculateStats || a.classifyData))

/-- The 400 bytes of one band's class array (VSIFWriteL of panClasses+i*100,
4, 100). -/
def classBytes (c : Nat → Int) : List Nat :=
  (List.range 100).foldr (fun j acc => le32 (c j) ++ acc) []

/-- The 20 bytes of the `panMetadata` unit-code array (VSIFWriteL of 10
GInt16 values). -/
def codesBytes (codes : List Int) : List Nat :=
  codes.foldr (fun v acc => le16i v ++ acc) []

/-- One band of the statistics section: min and max as truncated int32, then
either the class count and the 100-entry class array, or a -1 sentinel
followed by a 400-byte forward seek. -/
def bandStatsOps (classify : Bool) (mn mx fnd : Int) (cls : Nat → Int) (pos : Nat) :
    List (Nat × List Nat) :=
  if classify then
    [(pos, le32 mn), (pos + 4, le32 mx), (pos + 8, le32 fnd), (pos + 12, classBytes cls)]
  else
    [(pos, le32 mn), (pos + 4, le32 mx), (pos + 8, le32 (-1))]

/-- The statistics loop: `k` bands remain, the current band index is `i`, the
cursor is at `pos`.  At i = 5 with crown fuels absent but ground fuels
present the writer seeks forward to 3340.  Every band advances the cursor by
412 bytes. -/
def statsLoop (a : CreateArgs) (classify crown ground : Bool) :
    Nat → Nat → Nat → List (Nat × List Nat) × Nat
  | 0, _, pos => ([], pos)
  | k + 1, i, pos =>
    let pos1 := if i == 5 && !crown && ground then 3340 else pos
    let here := bandStatsOps classify (a.bandMin i) (a.bandMax i) (a.bandFound i)
      (a.bandClasses i) pos1
    let rest := statsLoop a classify crown ground k (i + 1) (pos1 + 412)
    (here ++ rest.1, rest.2)

/-- The statistics section: run the loop from offset 44 if stats are
written, else seek directly to 4164. -/
def statsSection (a : CreateArgs) (c : Config) : List (Nat × List Nat) × Nat :=
  if c.stats then statsLoop a a.classifyData (crownOf a.nBands) (groundOf a.nBands) a.nBands 0 44
  else ([], 4164)

/-- The source-file-name loop: each band writes the first source file name
(at most 256 bytes) at the cursor, then seeks to `4244 + 256 * (i + 1)`;
at i = 5 with crown absent and ground present it first seeks to 6292. -/
def fnameLoop (crown ground : Bool) (fn : List Nat) :
    Nat → Nat → Nat → List (Nat × List Nat) × Nat
  | 0, _, pos => ([], pos)
  | k + 1, i, pos =>
    let pos1 := if i == 5 && !crown && ground then 6292 else pos
    let rest := fnameLoop crown ground fn k (i + 1) (4244 + 256 * (i + 1))
    ((pos1, fn) :: rest.1, rest.2)

/-- The file-name section: run the loop from 4244 when a file list exists,
else seek directly to 6804. -/
def fnameSection (a : CreateArgs) : List (Nat × List Nat) × Nat :=
  match a.fileList with
  | some fl => fnameLoop (crownOf a.nBands) (groundOf a.nBands) (fl.take 256) a.nBands 0 4244
  | none => ([], 6804)

/-- The leading header block: the two feature flags, the rounded latitude and
the four extent doubles at offsets 0..43. -/
def hdOps (a : CreateArgs) (c : Config) (crown ground : Bool) : List (Nat × List Nat) :=
  [(0, le32 (if crown then 21 else 20)), (4, le32 (if ground then 21 else 20)),
   (8, le32 c.latW), (12, le64p a.eastP), (20, le64p a.westP),
   (28, le64p a.northP), (36, le64p a.southP)]

/-- The block written after the seek to 4164: image size, the four extent
doubles again, the linear-unit code, the two cell sizes and the ten unit
codes — ending at offset 4244. -/
def boundsOps (a : CreateArgs) (c : Config) : List (Nat × List Nat) :=
  [(4164, le32 a.width), (4168, le32 a.height), (4172, le64p a.eastP),
   (4180, le64p a.westP), (4188, le64p a.northP), (4196, le64p a.southP),
   (4204, le32 c.lu), (4208, le64p a.cellXP), (4216, le64p a.cellYP),
   (4224, codesBytes c.codes)]

structure EncodeResult where
  ops : List (Nat × List Nat)
  statsEnd : Nat
  fnameEnd : Nat
  latWritten : Int
  linearUnits : Int
  codes : List Int
  size : Nat

/-- The header write phase of CreateCopy: all header write operations in
program order, the cursor positions at the two CPLAssert checkpoints
(`statsEnd` after the statistics section, which must be 2104, 3340 or 4164,
and `fnameEnd` after the file-name section, which must be 5524, 6292 or
6804), and the total output size (7316-byte header plus the row-interleaved
2-byte samples). -/
def encode (a : CreateArgs) (c : Config) : EncodeResult :=
  let crown := crownOf a.nBands
  let ground := groundOf a.nBands
  let sp := statsSection a c
  let fs := fnameSection a
  EncodeResult.mk
    (hdOps a c crown ground ++
      (sp.1 ++ (boundsOps a c ++ (fs.1 ++ [(6804, a.description.take 512)]))))
    sp.2 fs.2 c.latW c.lu c.codes
    (7316 + 2 * a.nBands * (a.width.toNat * a.height.toNat))

/-- `LCPDataset::CreateCopy`: validation first; only on success is the output
file opened and the header encoded, so a validation failure writes nothing. -/
def createCopy (a : CreateArgs) : Option EncodeResult := (validate a).map (encode a)

/-- The byte content of the written file (unwritten offsets read as 0). -/
def encodedFile (r : EncodeResult) : Nat → Nat := applyOps zeroFile r.ops

theorem validateUnits_inv (a : CreateArgs) (cr gr : Bool) (codes : List Int)
    (h : validateUnits a cr gr = some codes) :
    ∃ m0 m1 m2 m3 m4 m5 m6 m7 m8,
      parseElevationUnit (a.elevationUnit.getD "METERS") = some m0 ∧
      parseSlopeUnit (a.slopeUnit.getD "DEGREES") = some m1 ∧
      parseAspectUnit (a.aspectUnit.getD "AZIMUTH_DEGREES") = some m2 ∧
      parseFuelModelOption (a.fuelModelOption.getD "NO_CUSTOM_AND_NO_FILE") = some m3 ∧
      parseCanopyCovUnit (a.canopyCovUnit.getD "PERCENT") = some m4 ∧
      (if cr then parseCanopyHtUnit (a.canopyHtUnit.getD "METERS_X_10") else some 3) = some m5 ∧
      (if cr then parseCbhUnit (a.cbhUnit.getD "METERS_X_10") else some 3) = some m6 ∧
      (if cr then parseCbdUnit (a.cbdUnit.getD "KG_PER_CUBIC_METER_X_100") else some 3) = some m7 ∧
      (if gr then parseDuffUnit (a.duffUnit.getD "MG_PER_HECTARE_X_10") else some 1) = some m8 ∧
      codes = [m0, m1, m2, m3, m4, m5, m6, m7, m8, if gr then 1 else 0] := by
  rw [validateUnits] at h
  cases h0 : parseElevationUnit (a.elevationUnit.getD "METERS") with
  | none => rw [h0] at h; simp at h
  | some m0 =>
    rw [h0] at h
    cases h1 : parseSlopeUnit (a.slopeUnit.getD "DEGREES") with
    | none => rw [h1] at h; simp at h
    | some m1 =>
      rw [h1] at h
      cases h2 : parseAspectUnit (a.aspectUnit.getD "AZIMUTH_DEGREES") with
      | none => rw [h2] at h; simp at h
      | some m2 =>
        rw [h2] at h
        cases h3 : parseFuelModelOption (a.fuelModelOption.getD "NO_CUSTOM_AND_NO_FILE") with
        | none => rw [h3] at h; simp at h
        | some m3 =>
          rw [h3] at h
          cases h4 : parseCanopyCovUnit (a.canopyCovUnit.getD "PERCENT") with
          | none => rw [h4] at h; simp at h
          | some m4 =>
            rw [h4] at h
            cases h5 : (if cr then parseCanopyHtUnit (a.canopyHtUnit.getD "METERS_X_10") else some 3) with
            | none => rw [h5] at h; simp at h
            | some m5 =>
              rw [h5] at h
              cases h6 : (if cr then parseCbhUnit (a.cbhUnit.getD "METERS_X_10") else some 3) with
              | none => rw [h6] at h; simp at h
              | some m6 =>
                rw [h6] at h
                cases h7 : (if cr then parseCbdUnit (a.cbdUnit.getD "KG_PER_CUBIC_METER_X_100") else some 3) with
                | none => rw [h7] at h; simp at h
                | some m7 =>
                  rw [h7] at h
                  cases h8 : (if gr then parseDuffUnit (a.duffUnit.getD "MG_PER_HECTARE_X_10") else some 1) with
                  | none => rw [h8] at h; simp at h
                  | some m8 =>
                    rw [h8] at h
                    have h9 : some [m0, m1, m2, m3, m4, m5, m6, m7, m8,
                        if gr then (1 : Int) else 0] = some codes := h
                    exact ⟨m0, m1, m2, m3, m4, m5, m6, m7, m8,
                      rfl, rfl, rfl, rfl, rfl, rfl, rfl, rfl, rfl, (Option.some.inj h9).symm⟩

theorem validate_inv (a : CreateArgs) (c : Config) (h : validate a = some c) :
    (a.nBands = 5 ∨ a.nBands = 7 ∨ a.nBands = 8 ∨ a.nBands = 10) ∧
    validateUnits a (crownOf a.nBands) (groundOf a.nBands) = some c.codes ∧
    resolveLatitude a = some c.latW ∧
    resolveLinearUnits a = some c.lu ∧
    c.stats = (a.calculateStats || a.classifyData) := by
  rw [validate] at h
  split at h
  · simp at h
  · rename_i hb
    split at h
    · simp at h
    · cases hu : validateUnits a (crownOf a.nBands) (groundOf a.nBands) with
      | none => rw [hu] at h; simp at h
      | some codes =>
        rw [hu] at h
        cases hl : resolveLatitude a with
        | none => rw [hl] at h; simp at h
        | some latW =>
          rw [hl] at h
          cases hr : resolveLinearUnits a with
          | none => rw [hr] at h; simp at h
          | some lu =>
            rw [hr] at h
            have h2 : some (Config.mk codes latW lu (a.calculateStats || a.classifyData)) =
                some c := h
            cases Option.some.inj h2
            refine ⟨?_, rfl, rfl, rfl, rfl⟩
            simp only [Bool.not_eq_true] at hb
            have hb2 : (a.nBands == 5 || a.nBands == 7 ||
                a.nBands == 8 || a.nBands == 10) = true := by
              revert hb
              cases (a.nBands == 5 || a.nBands == 7 || a.nBands == 8 || a.nBands == 10) <;> simp
            simp only [Bool.or_eq_true, beq_iff_eq] at hb2
            tauto

/-- Failure of one of the unit/option checks that CreateCopy actually
performs for the given band schema: the five always-consulted options, the
three crown-fuel options when crown fuels are present, DUFF_UNIT when ground
fuels are present. -/
def unitOptionFailure (a : CreateArgs) : Prop :=
  parseElevationUnit (a.elevationUnit.getD "METERS") = none ∨
  parseSlopeUnit (a.slopeUnit.getD "DEGREES") = none ∨
  parseAspectUnit (a.aspectUnit.getD "AZIMUTH_DEGREES") = none ∨
  parseFuelModelOption (a.fuelModelOption.getD "NO_CUSTOM_AND_NO_FILE") = none ∨
  parseCanopyCovUnit (a.canopyCovUnit.getD "PERCENT") = none ∨
  (crownOf a.nBands = true ∧ parseCanopyHtUnit (a.canopyHtUnit.getD "METERS_X_10") = none) ∨
  (crownOf a.nBands = true ∧ parseCbhUnit (a.cbhUnit.getD "METERS_X_10") = none) ∨
  (crownOf a.nBands = true ∧
    parseCbdUnit (a.cbdUnit.getD "KG_PER_CUBIC_METER_X_100") = none) ∨
  (groundOf a.nBands = true ∧ parseDuffUnit (a.duffUnit.getD "MG_PER_HECTARE_X_10") = none)

theorem validateUnits_fail (a : CreateArgs) (h : unitOptionFailure a) :
    validateUnits a (crownOf a.nBands) (groundOf a.nBands) = none := by
  cases hu : validateUnits a (crownOf a.nBands) (groundOf a.nBands) with
  | none => rfl
  | some codes =>
    exfalso
    obtain ⟨m0, m1, m2, m3, m4, m5, m6, m7, m8, h0, h1, h2, h3, h4, h5, h6, h7, h8, _⟩ :=
      validateUnits_inv a _ _ codes hu
    unfold unitOptionFailure at h
    rcases h with h | h | h | h | h | h | h | h | h
    · rw [h] at h0; simp at h0
    · rw [h] at h1; simp at h1
    · rw [h] at h2; simp at h2
    · rw [h] at h3; simp at h3
    · rw [h] at h4; simp at h4
    · rw [h.1] at h5; rw [if_pos rfl] at h5; rw [h.2] at h5; simp at h5
    · rw [h.1] at h6; rw [if_pos rfl] at h6; rw [h.2] at h6; simp at h6
    · rw [h.1] at h7; rw [if_pos rfl] at h7; rw [h.2] at h7; simp at h7
    · rw [h.1] at h8; rw [if_pos rfl] at h8; rw [h.2] at h8; simp at h8

theorem validate_none_of_lat (a : CreateArgs) (h : resolveLatitude a = none) :
    validate a = none := by
  rw [validate]
  split
  · rfl
  · split
    · rfl
    · cases hu : validateUnits a (crownOf a.nBands) (groundOf a.nBands) with
      | none => rfl
      | some codes => rw [h]

theorem validate_none_of_lu (a : CreateArgs) (h : resolveLinearUnits a = none) :
    validate a = none := by
  rw [validate]
  split
  · rfl
  · split
    · rfl
    · cases hu : validateUnits a (crownOf a.nBands) (groundOf a.nBands) with
      | none => rfl
      | some codes =>
        cases hl : resolveLatitude a with
        | none => rfl
        | some latW => rw [h]

theorem resolveLinearUnits_default (a : CreateArgs)
    (hset : eqCI (a.linearUnit.getD "SET_FROM_SRS") "SET_FROM_SRS" = true)
    (hsrs : a.srsPresent = false ∨ (a.srsPresent = true ∧ a.srsUnitName = none)) :
    resolveLinearUnits a = if a.strict then none else some 0 := by
  rw [resolveLinearUnits]
  rcases hsrs with h | ⟨h1, h2⟩
  · simp [hset, h]
  · simp [hset, h1, h2]

/-- A 5-band CreateCopy request whose CBH_UNIT (a crown-fuel option that is
not consulted with only 5 bands) is an invalid string. -/
def argsC6cex : CreateArgs :=
  CreateArgs.mk 5 true true 1 1 0 0 0 0 0 0
    none none none none none none (some "BOGUS") none none (some "METER") (some 40)
    false false false none none none
    (fun _ => 0) (fun _ => 0) (fun _ => 0) (fun _ _ => 0) none []

/-- C6 counterexample: the claim says CreateCopy fails whenever a requested
unit/option value has no matching enumerated code.  With a 5-band source the
crown-fuel options are never consulted, so CBH_UNIT=BOGUS — which matches no
code — does not make CreateCopy fail. -/
theorem claim_C6_cex :
    parseCbhUnit "BOGUS" = none ∧ argsC6cex.cbhUnit = some "BOGUS" ∧
    (createCopy argsC6cex).isSome = true := by
  refine ⟨by decide, rfl, by rfl⟩

/-- C6 (amended): CreateCopy fails when the source band count is not in
{5, 7, 8, 10}, or when a requested unit/option value that the writer
consults for the band schema (the five always-consulted options, the three
crown-fuel options when crown fuels are present, DUFF_UNIT when ground fuels
are present) has no matching enumerated code; every such failure happens in
the validation stage, before the output file is opened, so nothing is
written. -/
theorem claim_C6 (a : CreateArgs)
    (h : ¬(a.nBands = 5 ∨ a.nBands = 7 ∨ a.nBands = 8 ∨ a.nBands = 10) ∨ unitOptionFailure a) :
    validate a = none ∧ createCopy a = none := by
  have hv : validate a = none := by
    rcases h with hbad | hfail
    · push_neg at hbad
      have hb : (a.nBands == 5 || a.nBands == 7 || a.nBands == 8 || a.nBands == 10) = false := by
        simp [hbad.1, hbad.2.1, hbad.2.2.1, hbad.2.2.2]
      rw [validate, hb]
      rfl
    · have hnone := validateUnits_fail a hfail
      rw [validate]
      split
      · rfl
      · split
        · rfl
        · rw [hnone]
  exact ⟨hv, by rw [createCopy, hv]; rfl⟩

/-- A 6-band CreateCopy request (invalid band count). -/
def argsC6w : CreateArgs :=
  CreateArgs.mk 6 true true 1 1 0 0 0 0 0 0
    none none none none none none none none none (some "METER") (some 40)
    false false false none none none
    (fun _ => 0) (fun _ => 0) (fun _ => 0) (fun _ _ => 0) none []

/-- Witness for C6 at a concrete 6-band request. -/
theorem claim_C6_witness : validate argsC6w = none ∧ createCopy argsC6w = none :=
  claim_C6 argsC6w (Or.inl (by decide))

/-- A 5-band CreateCopy request with no LATITUDE option, a spatial reference
present, but no constructible coordinate transformation, in strict mode. -/
def argsC7cex : CreateArgs :=
  CreateArgs.mk 5 true true 1 1 0 0 0 0 0 0
    none none none none none none none none none (some "METER") none
    false false true none none none
    (fun _ => 0) (fun _ => 0) (fun _ => 0) (fun _ _ => 0) none []

/-- C7 counterexample: the claim says CreateCopy fails in both modes whenever
the latitude is neither supplied nor derivable by transforming the center
point.  When OGRCreateCoordinateTransformation returns null the code never
errors: it proceeds with dfLatitude = 0.0 even in strict mode, and the
written latitude is 0. -/
theorem claim_C7_cex :
    argsC7cex.latitudeOpt = none ∧ argsC7cex.srsPresent = true ∧
    argsC7cex.ctransform = none ∧ argsC7cex.strict = true ∧
    (createCopy argsC7cex).map (fun r => r.latWritten) = some 0 := by
  refine ⟨rfl, rfl, rfl, rfl, by rfl⟩

/-- C7 (amended): when the latitude is not supplied, CreateCopy fails in
both modes if there is no source spatial reference, or if the constructed
coordinate transformation reports failure (but when the transformation
object cannot be constructed at all, the latitude silently defaults to 0
and CreateCopy proceeds); when LINEAR_UNIT is left at SET_FROM_SRS and the
unit is not determinable (no spatial reference, or no UNIT attribute on it),
CreateCopy fails in strict mode and defaults the linear unit to meters
(code 0) otherwise. -/
theorem claim_C7 (a : CreateArgs) :
    (a.latitudeOpt = none → a.srsPresent = false → createCopy a = none) ∧
    (a.latitudeOpt = none → a.ctransform = some none → createCopy a = none) ∧
    (eqCI (a.linearUnit.getD "SET_FROM_SRS") "SET_FROM_SRS" = true →
      (a.srsPresent = false ∨ (a.srsPresent = true ∧ a.srsUnitName = none)) →
      (a.strict = true → createCopy a = none) ∧
      (∀ r, createCopy a = some r → r.linearUnits = 0)) := by
  refine ⟨?_, ?_, ?_⟩
  · intro hlat hsrs
    have h1 : resolveLatitude a = none := by
      rw [resolveLatitude, hlat, hsrs]
      rfl
    have hv := validate_none_of_lat a h1
    rw [createCopy, hv]
    rfl
  · intro hlat hct
    have h1 : resolveLatitude a = none := by
      rw [resolveLatitude, hlat, hct]
      cases hsrs : a.srsPresent <;> rfl
    have hv := validate_none_of_lat a h1
    rw [createCopy, hv]
    rfl
  · intro hset hsrs
    have hdef := resolveLinearUnits_default a hset hsrs
    constructor
    · intro hstrict
      have h1 : resolveLinearUnits a = none := by rw [hdef, hstrict]; rfl
      have hv := validate_none_of_lu a h1
      rw [createCopy, hv]
      rfl
    · intro r hr
      rw [createCopy] at hr
      obtain ⟨c, hc, hec⟩ := Option.map_eq_some'.mp hr
      have hlu : resolveLinearUnits a = some c.lu := (validate_inv a c hc).2.2.2.1
      rw [hdef] at hlu
      cases hst : a.strict with
      | true => rw [hst] at hlu; simp at hlu
      | false =>
        rw [hst] at hlu
        simp at hlu
        have h0 : c.lu = 0 := by omega
        rw [← hec]
        exact h0

/-- A 5-band CreateCopy request with no LATITUDE option and no spatial
reference at all. -/
def argsC7w : CreateArgs :=
  CreateArgs.mk 5 true false 1 1 0 0 0 0 0 0
    none none none none none none none none none (some "METER") none
    false false false none none none
    (fun _ => 0) (fun _ => 0) (fun _ => 0) (fun _ _ => 0) none []

/-- Witness for C7: with no latitude and no spatial reference, CreateCopy
fails even in non-strict mode. -/
theorem claim_C7_witness : createCopy argsC7w = none :=
  (claim_C7 argsC7w).1 rfl rfl

/-- A 7-band CreateCopy request (crown fuels absent, ground fuels present)
whose source exposes a file list. -/
def argsC8 : CreateArgs :=
  CreateArgs.mk 7 true true 1 1 0 0 0 0 0 0
    none none none none none none none none none (some "METER") (some 40)
    true true false none none none
    (fun _ => 0) (fun _ => 0) (fun _ => 0) (fun _ _ => 0) (some [97]) []

/-- C8: the claim says that after the source-file-name section the cursor is
always one of {5524, 6292, 6804}, including the crown-absent/ground-present
case.  The code violates its own CPLAssert there: for a 7-band source with a
file list, the loop seeks forward to 6292 for band 6 (Duff) but then seeks
back to 4244 + 256*(i+1) = 5780, writes band 7's CWD file name into the
crown CBH slot, and ends at 6036 ∉ {5524, 6292, 6804}.  (The statistics
checkpoint is fine: here it is 4164, one of {2104, 3340, 4164}.) -/
theorem claim_C8 :
    (createCopy argsC8).map (fun r => (r.statsEnd, r.fnameEnd)) = some (4164, 6036) ∧
    ¬((6036 : Nat) = 5524 ∨ (6036 : Nat) = 6292 ∨ (6036 : Nat) = 6804) := by
  refine ⟨by rfl, by decide⟩


theorem writeBytes_append (f : Nat → Nat) (off : Nat) (xs ys : List Nat) :
    writeBytes f off (xs ++ ys) = writeBytes (writeBytes f off xs) (off + xs.length) ys := by
  induction xs generalizing f off with
  | nil => simp [writeBytes]
  | cons b bs ih =>
    rw [List.cons_append, writeBytes, ih, writeBytes]
    have : off + (b :: bs).length = (off + 1) + bs.length := by simp; omega
    rw [this]

theorem readU32_congr {f g : Nat → Nat} {o : Nat}
    (h : ∀ j, j < 4 → f (o + j) = g (o + j)) : readU32 f o = readU32 g o := by
  have h0 := h 0 (by omega)
  have h1 := h 1 (by omega)
  have h2 := h 2 (by omega)
  have h3 := h 3 (by omega)
  simp only [Nat.add_zero] at h0
  rw [readU32, readU32, h0, h1, h2, h3]

theorem readS32_congr {f g : Nat → Nat} {o : Nat}
    (h : ∀ j, j < 4 → f (o + j) = g (o + j)) : readS32 f o = readS32 g o := by
  rw [readS32, readS32, readU32_congr h]

theorem readP64_congr {f g : Nat → Nat} {o : Nat}
    (h : ∀ j, j < 8 → f (o + j) = g (o + j)) : readP64 f o = readP64 g o := by
  have h0 := h 0 (by omega)
  have h1 := h 1 (by omega)
  have h2 := h 2 (by omega)
  have h3 := h 3 (by omega)
  have h4 := h 4 (by omega)
  have h5 := h 5 (by omega)
  have h6 := h 6 (by omega)
  have h7 := h 7 (by omega)
  simp only [Nat.add_zero] at h0
  rw [readP64, readP64, h0, h1, h2, h3, h4, h5, h6, h7]

theorem readU16_congr {f g : Nat → Nat} {o : Nat}
    (h : ∀ j, j < 2 → f (o + j) = g (o + j)) : readU16 f o = readU16 g o := by
  have h0 := h 0 (by omega)
  have h1 := h 1 (by omega)
  simp only [Nat.add_zero] at h0
  rw [readU16, readU16, h0, h1]

theorem readS32_ops (f : Nat → Nat) (off : Nat) (v : Int) (rest : List (Nat × List Nat))
    (h1 : -2147483648 ≤ v) (h2 : v < 2147483648)
    (hrest : ∀ op ∈ rest, off + 4 ≤ op.1 ∨ op.1 + op.2.length ≤ off) :
    readS32 (applyOps f ((off, le32 v) :: rest)) off = v := by
  have hpt : ∀ j, j < 4 → applyOps f ((off, le32 v) :: rest) (off + j)
      = writeBytes f off (le32 v) (off + j) := by
    intro j hj
    show applyOps (writeBytes f off (le32 v)) rest (off + j) = _
    apply applyOps_pt
    intro op hop
    rcases hrest op hop with h | h
    · left; omega
    · right; omega
  rw [readS32_congr hpt]
  exact readS32_write f off v h1 h2

theorem readP64_ops (f : Nat → Nat) (off : Nat) (p : Nat) (rest : List (Nat × List Nat))
    (hp : p < 18446744073709551616)
    (hrest : ∀ op ∈ rest, off + 8 ≤ op.1 ∨ op.1 + op.2.length ≤ off) :
    readP64 (applyOps f ((off, le64p p) :: rest)) off = p := by
  have hpt : ∀ j, j < 8 → applyOps f ((off, le64p p) :: rest) (off + j)
      = writeBytes f off (le64p p) (off + j) := by
    intro j hj
    show applyOps (writeBytes f off (le64p p)) rest (off + j) = _
    apply applyOps_pt
    intro op hop
    rcases hrest op hop with h | h
    · left; omega
    · right; omega
  rw [readP64_congr hpt]
  exact readP64_write f off p hp

theorem codesBytes_cons (c : Int) (t : List Int) :
    codesBytes (c :: t) = le16i c ++ codesBytes t := rfl

theorem readU16_listAt (f : Nat → Nat) (off : Nat) (cs : List Int) (k : Nat)
    (hk : k < cs.length)
    (hb : ∀ x ∈ cs, 0 ≤ x ∧ x < 65536) :
    readU16 (writeBytes f off (codesBytes cs)) (off + 2 * k) = (cs.getD k 0).toNat := by
  induction cs generalizing f off k with
  | nil => simp at hk
  | cons cHead cTail ih =>
    rw [codesBytes_cons, writeBytes_append, le16i_length]
    cases k with
    | zero =>
      have e0 : writeBytes (writeBytes f off (le16i cHead)) (off + 2) (codesBytes cTail) off
          = writeBytes f off (le16i cHead) off := writeBytes_lt (by omega)
      have e1 : writeBytes (writeBytes f off (le16i cHead)) (off + 2) (codesBytes cTail) (off + 1)
          = writeBytes f off (le16i cHead) (off + 1) := writeBytes_lt (by omega)
      have b0 : writeBytes f off (le16i cHead) off = (cHead % 65536).toNat % 256 := by
        have := @writeBytes_inside f off (le16i cHead) 0 (by simp)
        simpa using this
      have b1 : writeBytes f off (le16i cHead) (off + 1)
          = (cHead % 65536).toNat / 256 % 256 :=
        writeBytes_inside (by simp)
      have hcb := hb cHead (by simp)
      rw [show off + 2 * 0 = off by omega, readU16, e0, e1, b0, b1]
      simp only [List.getD_cons_zero]
      omega
    | succ k =>
      rw [show off + 2 * (k + 1) = (off + 2) + 2 * k by omega]
      rw [ih (writeBytes f off (le16i cHead)) (off + 2) k (by simp at hk; omega)
        (fun x hx => hb x (by simp [hx]))]
      simp



theorem classBytes_length (c : Nat → Int) : (classBytes c).length = 400 := by
  rw [classBytes]
  have : ∀ l : List Nat, (l.foldr (fun j acc => le32 (c j) ++ acc) []).length = 4 * l.length := by
    intro l
    induction l with
    | nil => simp
    | cons x xs ih => simp [ih]; omega
  rw [this]
  simp

theorem statsLoop_bound (a : CreateArgs) (cl cr gr : Bool) :
    ∀ k i pos, 44 ≤ pos → pos + 412 * k ≤ 4164 →
      (cr = false → gr = true → i + k ≤ 7) →
      (∀ op ∈ (statsLoop a cl cr gr k i pos).1, 44 ≤ op.1 ∧ op.1 + op.2.length ≤ 4164) := by
  intro k
  induction k with
  | zero => intro i pos h1 h2 h3 op hop; simp [statsLoop] at hop
  | succ k ih =>
    intro i pos h1 h2 h3 op hop
    rw [statsLoop] at hop
    simp only [List.mem_append] at hop
    by_cases h5 : (i == 5 && !cr && gr) = true
    · have h5' : i = 5 ∧ cr = false ∧ gr = true := by
        simp only [Bool.and_eq_true, beq_iff_eq, Bool.not_eq_true'] at h5
        exact ⟨h5.1.1, h5.1.2, h5.2⟩
      have hk2 : k ≤ 1 := by have := h3 h5'.2.1 h5'.2.2; omega
      rw [h5] at hop
      simp only [if_true] at hop
      rcases hop with hop | hop
      · rw [bandStatsOps] at hop
        split at hop <;>
          simp only [List.mem_cons, List.not_mem_nil, or_false] at hop <;>
          rcases hop with rfl | rfl | rfl | rfl <;>
          simp [classBytes_length]
      · have := ih (i + 1) 3752 (by omega) (by omega) (by omega) op hop
        exact this
    · have h5b : (if i == 5 && !cr && gr then 3340 else pos) = pos := by
        simp [h5]
      rw [h5b] at hop
      rcases hop with hop | hop
      · rw [bandStatsOps] at hop
        split at hop <;>
          simp only [List.mem_cons, List.not_mem_nil, or_false] at hop <;>
          rcases hop with rfl | rfl | rfl | rfl <;>
          simp [classBytes_length] <;> omega
      · have := ih (i + 1) (pos + 412) (by omega) (by omega) (by intro hc hg; have := h3 hc hg; omega) op hop
        exact this



theorem statsSection_bound (a : CreateArgs) (c : Config)
    (hn : a.nBands = 5 ∨ a.nBands = 7 ∨ a.nBands = 8 ∨ a.nBands = 10) :
    ∀ op ∈ (statsSection a c).1, 44 ≤ op.1 ∧ op.1 + op.2.length ≤ 4164 := by
  intro op hop
  rw [statsSection] at hop
  split at hop
  · refine statsLoop_bound a a.classifyData (crownOf a.nBands) (groundOf a.nBands)
      a.nBands 0 44 (by omega) ?_ ?_ op hop
    · rcases hn with h | h | h | h <;> rw [h] <;> omega
    · intro hc hg
      rcases hn with h | h | h | h <;> rw [h] <;> rw [h] at hc hg <;>
        simp [crownOf, groundOf] at hc hg ⊢
  · simp at hop

theorem fnameLoop_bound (cr gr : Bool) (fn : List Nat) :
    ∀ k i pos, 4244 ≤ pos → ∀ op ∈ (fnameLoop cr gr fn k i pos).1, 4244 ≤ op.1 := by
  intro k
  induction k with
  | zero => intro i pos h op hop; simp [fnameLoop] at hop
  | succ k ih =>
    intro i pos h op hop
    rw [fnameLoop] at hop
    simp only [List.mem_cons] at hop
    rcases hop with rfl | hop
    · show 4244 ≤ (if i == 5 && !cr && gr then 6292 else pos)
      split <;> omega
    · exact ih (i + 1) (4244 + 256 * (i + 1)) (by omega) op hop

theorem fnameSection_bound (a : CreateArgs) :
    ∀ op ∈ (fnameSection a).1, 4244 ≤ op.1 := by
  intro op hop
  rw [fnameSection] at hop
  split at hop
  · exact fnameLoop_bound _ _ _ a.nBands 0 4244 (by omega) op hop
  · simp at hop

theorem boundsOps_off (a : CreateArgs) (c : Config) :
    ∀ op ∈ boundsOps a c, 4164 ≤ op.1 := by
  intro op hop
  simp only [boundsOps, List.mem_cons, List.not_mem_nil, or_false] at hop
  rcases hop with rfl | rfl | rfl | rfl | rfl | rfl | rfl | rfl | rfl | rfl <;> norm_num



theorem parseElevationUnit_bound {s : String} {v : Int}
    (h : parseElevationUnit s = some v) : 0 ≤ v ∧ v < 65536 := by
  rw [parseElevationUnit] at h
  split_ifs at h <;> simp_all <;> omega

theorem parseSlopeUnit_bound {s : String} {v : Int}
    (h : parseSlopeUnit s = some v) : 0 ≤ v ∧ v < 65536 := by
  rw [parseSlopeUnit] at h
  split_ifs at h <;> simp_all <;> omega

theorem parseAspectUnit_bound {s : String} {v : Int}
    (h : parseAspectUnit s = some v) : 0 ≤ v ∧ v < 65536 := by
  rw [parseAspectUnit] at h
  split_ifs at h <;> simp_all <;> omega

theorem parseFuelModelOption_bound {s : String} {v : Int}
    (h : parseFuelModelOption s = some v) : 0 ≤ v ∧ v < 65536 := by
  rw [parseFuelModelOption] at h
  split_ifs at h <;> simp_all <;> omega

theorem parseCanopyCovUnit_bound {s : String} {v : Int}
    (h : parseCanopyCovUnit s = some v) : 0 ≤ v ∧ v < 65536 := by
  rw [parseCanopyCovUnit] at h
  split_ifs at h <;> simp_all <;> omega

theorem parseCanopyHtUnit_bound {s : String} {v : Int}
    (h : parseCanopyHtUnit s = some v) : 0 ≤ v ∧ v < 65536 := by
  rw [parseCanopyHtUnit] at h
  split_ifs at h <;> simp_all <;> omega

theorem parseCbhUnit_bound {s : String} {v : Int}
    (h : parseCbhUnit s = some v) : 0 ≤ v ∧ v < 65536 := by
  rw [parseCbhUnit] at h
  split_ifs at h <;> simp_all <;> omega

theorem parseCbdUnit_bound {s : String} {v : Int}
    (h : parseCbdUnit s = some v) : 0 ≤ v ∧ v < 65536 := by
  rw [parseCbdUnit] at h
  split_ifs at h <;> simp_all <;> omega

theorem parseDuffUnit_bound {s : String} {v : Int}
    (h : parseDuffUnit s = some v) : 0 ≤ v ∧ v < 65536 := by
  rw [parseDuffUnit] at h
  split_ifs at h <;> simp_all <;> omega

theorem validateUnits_codes_bound (a : CreateArgs) (cr gr : Bool) (codes : List Int)
    (h : validateUnits a cr gr = some codes) :
    ∀ x ∈ codes, 0 ≤ x ∧ x < 65536 := by
  obtain ⟨m0, m1, m2, m3, m4, m5, m6, m7, m8, h0, h1, h2, h3, h4, h5, h6, h7, h8, hc⟩ :=
    validateUnits_inv a cr gr codes h
  subst hc
  intro x hx
  simp only [List.mem_cons, List.not_mem_nil, or_false] at hx
  rcases hx with rfl | rfl | rfl | rfl | rfl | rfl | rfl | rfl | rfl | rfl
  · exact parseElevationUnit_bound h0
  · exact parseSlopeUnit_bound h1
  · exact parseAspectUnit_bound h2
  · exact parseFuelModelOption_bound h3
  · exact parseCanopyCovUnit_bound h4
  · cases hcr : cr
    · rw [hcr] at h5; simp at h5; omega
    · rw [hcr] at h5; simp only [if_true] at h5; exact parseCanopyHtUnit_bound h5
  · cases hcr : cr
    · rw [hcr] at h6; simp at h6; omega
    · rw [hcr] at h6; simp only [if_true] at h6; exact parseCbhUnit_bound h6
  · cases hcr : cr
    · rw [hcr] at h7; simp at h7; omega
    · rw [hcr] at h7; simp only [if_true] at h7; exact parseCbdUnit_bound h7
  · cases hgr : gr
    · rw [hgr] at h8; simp at h8; omega
    · rw [hgr] at h8; simp only [if_true] at h8; exact parseDuffUnit_bound h8
  · split <;> omega

theorem resolveLinearUnits_bound {a : CreateArgs} {lu : Int}
    (h : resolveLinearUnits a = some lu) : 0 ≤ lu ∧ lu ≤ 2 := by
  rw [resolveLinearUnits] at h
  repeat' split at h
  all_goals (try simp_all)
  all_goals omega


theorem applyOps_cons_eq (f : Nat → Nat) (off : Nat) (bs : List Nat)
    (ops : List (Nat × List Nat)) :
    applyOps f ((off, bs) :: ops) = applyOps (writeBytes f off bs) ops := rfl

theorem encode_low (a : CreateArgs) (c : Config)
    (hn : a.nBands = 5 ∨ a.nBands = 7 ∨ a.nBands = 8 ∨ a.nBands = 10) :
    ∀ o, o < 44 → encodedFile (encode a c) o
      = applyOps zeroFile (hdOps a c (crownOf a.nBands) (groundOf a.nBands)) o := by
  intro o ho
  show applyOps zeroFile (hdOps a c (crownOf a.nBands) (groundOf a.nBands) ++
      ((statsSection a c).1 ++ (boundsOps a c ++
        ((fnameSection a).1 ++ [(6804, a.description.take 512)])))) o = _
  rw [applyOps_append]
  apply applyOps_pt
  intro op hop
  left
  simp only [List.mem_append] at hop
  rcases hop with hop | hop | hop | hop
  · have := statsSection_bound a c hn op hop; omega
  · have := boundsOps_off a c op hop; omega
  · have := fnameSection_bound a op hop; omega
  · simp only [List.mem_singleton] at hop
    subst hop
    show o < 6804
    omega

theorem encode_mid (a : CreateArgs) (c : Config) :
    ∀ o, 4164 ≤ o → o < 4244 → encodedFile (encode a c) o
      = applyOps (applyOps (applyOps zeroFile
          (hdOps a c (crownOf a.nBands) (groundOf a.nBands))) (statsSection a c).1)
          (boundsOps a c) o := by
  intro o h1 h2
  show applyOps zeroFile (hdOps a c (crownOf a.nBands) (groundOf a.nBands) ++
      ((statsSection a c).1 ++ (boundsOps a c ++
        ((fnameSection a).1 ++ [(6804, a.description.take 512)])))) o = _
  rw [applyOps_append, applyOps_append, applyOps_append]
  apply applyOps_pt
  intro op hop
  left
  simp only [List.mem_append] at hop
  rcases hop with hop | hop
  · have := fnameSection_bound a op hop; omega
  · simp only [List.mem_singleton] at hop
    subst hop
    show o < 6804
    omega



theorem encode_read0 (a : CreateArgs) (c : Config)
    (hn : a.nBands = 5 ∨ a.nBands = 7 ∨ a.nBands = 8 ∨ a.nBands = 10) :
    readS32 (encodedFile (encode a c)) 0 = (if crownOf a.nBands then 21 else 20) := by
  rw [readS32_congr (fun j hj => encode_low a c hn (0 + j) (by omega))]
  rw [hdOps]
  refine readS32_ops zeroFile 0 _ _ (by split <;> omega) (by split <;> omega) ?_
  intro op hop
  simp only [List.mem_cons, List.not_mem_nil, or_false] at hop
  rcases hop with rfl | rfl | rfl | rfl | rfl | rfl <;> left <;> norm_num

theorem encode_read4 (a : CreateArgs) (c : Config)
    (hn : a.nBands = 5 ∨ a.nBands = 7 ∨ a.nBands = 8 ∨ a.nBands = 10) :
    readS32 (encodedFile (encode a c)) 4 = (if groundOf a.nBands then 21 else 20) := by
  rw [readS32_congr (fun j hj => encode_low a c hn (4 + j) (by omega))]
  rw [hdOps, applyOps_cons_eq]
  refine readS32_ops _ 4 _ _ (by split <;> omega) (by split <;> omega) ?_
  intro op hop
  simp only [List.mem_cons, List.not_mem_nil, or_false] at hop
  rcases hop with rfl | rfl | rfl | rfl | rfl <;> left <;> norm_num

theorem encode_read8 (a : CreateArgs) (c : Config)
    (hn : a.nBands = 5 ∨ a.nBands = 7 ∨ a.nBands = 8 ∨ a.nBands = 10)
    (hlat1 : -90 ≤ c.latW) (hlat2 : c.latW ≤ 90) :
    readS32 (encodedFile (encode a c)) 8 = c.latW := by
  rw [readS32_congr (fun j hj => encode_low a c hn (8 + j) (by omega))]
  rw [hdOps, applyOps_cons_eq, applyOps_cons_eq]
  refine readS32_ops _ 8 _ _ (by omega) (by omega) ?_
  intro op hop
  simp only [List.mem_cons, List.not_mem_nil, or_false] at hop
  rcases hop with rfl | rfl | rfl | rfl <;> left <;> norm_num



theorem encode_read4164 (a : CreateArgs) (c : Config)
    (hw1 : -2147483648 ≤ a.width) (hw2 : a.width < 2147483648) :
    readS32 (encodedFile (encode a c)) 4164 = a.width := by
  rw [readS32_congr (fun j hj => encode_mid a c (4164 + j) (by omega) (by omega))]
  rw [boundsOps]
  refine readS32_ops _ 4164 _ _ hw1 hw2 ?_
  intro op hop
  simp only [List.mem_cons, List.not_mem_nil, or_false] at hop
  rcases hop with rfl | rfl | rfl | rfl | rfl | rfl | rfl | rfl | rfl <;> left <;> norm_num

theorem encode_read4168 (a : CreateArgs) (c : Config)
    (hh1 : -2147483648 ≤ a.height) (hh2 : a.height < 2147483648) :
    readS32 (encodedFile (encode a c)) 4168 = a.height := by
  rw [readS32_congr (fun j hj => encode_mid a c (4168 + j) (by omega) (by omega))]
  rw [boundsOps, applyOps_cons_eq]
  refine readS32_ops _ 4168 _ _ hh1 hh2 ?_
  intro op hop
  simp only [List.mem_cons, List.not_mem_nil, or_false] at hop
  rcases hop with rfl | rfl | rfl | rfl | rfl | rfl | rfl | rfl <;> left <;> norm_num

theorem encode_read4172 (a : CreateArgs) (c : Config)
    (hp : a.eastP < 18446744073709551616) :
    readP64 (encodedFile (encode a c)) 4172 = a.eastP := by
  rw [readP64_congr (fun j hj => encode_mid a c (4172 + j) (by omega) (by omega))]
  rw [boundsOps, applyOps_cons_eq, applyOps_cons_eq]
  refine readP64_ops _ 4172 _ _ hp ?_
  intro op hop
  simp only [List.mem_cons, List.not_mem_nil, or_false] at hop
  rcases hop with rfl | rfl | rfl | rfl | rfl | rfl | rfl <;> left <;> norm_num

theorem encode_read4180 (a : CreateArgs) (c : Config)
    (hp : a.westP < 18446744073709551616) :
    readP64 (encodedFile (encode a c)) 4180 = a.westP := by
  rw [readP64_congr (fun j hj => encode_mid a c (4180 + j) (by omega) (by omega))]
  rw [boundsOps, applyOps_cons_eq, applyOps_cons_eq, applyOps_cons_eq]
  refine readP64_ops _ 4180 _ _ hp ?_
  intro op hop
  simp only [List.mem_cons, List.not_mem_nil, or_false] at hop
  rcases hop with rfl | rfl | rfl | rfl | rfl | rfl <;> left <;> norm_num

theorem encode_read4188 (a : CreateArgs) (c : Config)
    (hp : a.northP < 18446744073709551616) :
    readP64 (encodedFile (encode a c)) 4188 = a.northP := by
  rw [readP64_congr (fun j hj => encode_mid a c (4188 + j) (by omega) (by omega))]
  rw [boundsOps, applyOps_cons_eq, applyOps_cons_eq, applyOps_cons_eq, applyOps_cons_eq]
  refine readP64_ops _ 4188 _ _ hp ?_
  intro op hop
  simp only [List.mem_cons, List.not_mem_nil, or_false] at hop
  rcases hop with rfl | rfl | rfl | rfl | rfl <;> left <;> norm_num

theorem encode_read4196 (a : CreateArgs) (c : Config)
    (hp : a.southP < 18446744073709551616) :
    readP64 (encodedFile (encode a c)) 4196 = a.southP := by
  rw [readP64_congr (fun j hj => encode_mid a c (4196 + j) (by omega) (by omega))]
  rw [boundsOps, applyOps_cons_eq, applyOps_cons_eq, applyOps_cons_eq, applyOps_cons_eq,
    applyOps_cons_eq]
  refine readP64_ops _ 4196 _ _ hp ?_
  intro op hop
  simp only [List.mem_cons, List.not_mem_nil, or_false] at hop
  rcases hop with rfl | rfl | rfl | rfl <;> left <;> norm_num

theorem encode_read4204 (a : CreateArgs) (c : Config)
    (hlu1 : 0 ≤ c.lu) (hlu2 : c.lu ≤ 2) :
    readS32 (encodedFile (encode a c)) 4204 = c.lu := by
  rw [readS32_congr (fun j hj => encode_mid a c (4204 + j) (by omega) (by omega))]
  rw [boundsOps, applyOps_cons_eq, applyOps_cons_eq, applyOps_cons_eq, applyOps_cons_eq,
    applyOps_cons_eq, applyOps_cons_eq]
  refine readS32_ops _ 4204 _ _ (by omega) (by omega) ?_
  intro op hop
  simp only [List.mem_cons, List.not_mem_nil, or_false] at hop
  rcases hop with rfl | rfl | rfl <;> left <;> norm_num

theorem encode_read4208 (a : CreateArgs) (c : Config)
    (hp : a.cellXP < 18446744073709551616) :
    readP64 (encodedFile (encode a c)) 4208 = a.cellXP := by
  rw [readP64_congr (fun j hj => encode_mid a c (4208 + j) (by omega) (by omega))]
  rw [boundsOps, applyOps_cons_eq, applyOps_cons_eq, applyOps_cons_eq, applyOps_cons_eq,
    applyOps_cons_eq, applyOps_cons_eq, applyOps_cons_eq]
  refine readP64_ops _ 4208 _ _ hp ?_
  intro op hop
  simp only [List.mem_cons, List.not_mem_nil, or_false] at hop
  rcases hop with rfl | rfl <;> left <;> norm_num

theorem encode_read4216 (a : CreateArgs) (c : Config)
    (hp : a.cellYP < 18446744073709551616) :
    readP64 (encodedFile (encode a c)) 4216 = a.cellYP := by
  rw [readP64_congr (fun j hj => encode_mid a c (4216 + j) (by omega) (by omega))]
  rw [boundsOps, applyOps_cons_eq, applyOps_cons_eq, applyOps_cons_eq, applyOps_cons_eq,
    applyOps_cons_eq, applyOps_cons_eq, applyOps_cons_eq, applyOps_cons_eq]
  refine readP64_ops _ 4216 _ _ hp ?_
  intro op hop
  simp only [List.mem_cons, List.not_mem_nil, or_false] at hop
  rcases hop with rfl
  left
  norm_num

theorem encode_readCode (a : CreateArgs) (c : Config) (k : Nat) (hk : k < 10)
    (hlen : c.codes.length = 10)
    (hcb : ∀ x ∈ c.codes, 0 ≤ x ∧ x < 65536) :
    readU16 (encodedFile (encode a c)) (4224 + 2 * k) = (c.codes.getD k 0).toNat := by
  rw [readU16_congr (fun j hj => encode_mid a c (4224 + 2 * k + j) (by omega) (by omega))]
  rw [boundsOps]
  simp only [applyOps]
  exact readU16_listAt _ 4224 c.codes k (by omega) hcb


theorem encode_lcpOpen (a : CreateArgs) (c : Config)
    (m0 m1 m2 m3 m4 m5 m6 m7 m8 m9 : Int)
    (hn : a.nBands = 5 ∨ a.nBands = 7 ∨ a.nBands = 8 ∨ a.nBands = 10)
    (hcodes : c.codes = [m0, m1, m2, m3, m4, m5, m6, m7, m8, m9])
    (hcb : ∀ x ∈ c.codes, 0 ≤ x ∧ x < 65536)
    (hlat1 : -90 ≤ c.latW) (hlat2 : c.latW ≤ 90)
    (hlu1 : 0 ≤ c.lu) (hlu2 : c.lu ≤ 2)
    (hw1 : 1 ≤ a.width) (hw2 : a.width < 2147483648)
    (hh1 : 1 ≤ a.height) (hh2 : a.height < 2147483648)
    (hov : a.width ≤ 2147483647 / (2 * (a.nBands : Int)))
    (hep : a.eastP < 18446744073709551616)
    (hwp : a.westP < 18446744073709551616)
    (hnp : a.northP < 18446744073709551616)
    (hsp : a.southP < 18446744073709551616)
    (hcx : a.cellXP < 18446744073709551616)
    (hcy : a.cellYP < 18446744073709551616) :
    lcpOpen (encodedFile (encode a c)) (encode a c).size =
      some (LCPInfo.mk (crownOf a.nBands) (groundOf a.nBands) a.nBands c.latW c.lu
        a.width a.height a.eastP a.westP a.northP a.southP a.cellXP a.cellYP
        [m0.toNat, m1.toNat, m2.toNat, m3.toNat, m4.toNat,
         m5.toNat, m6.toNat, m7.toNat, m8.toNat, m9.toNat]) := by
  have h0 := encode_read0 a c hn
  have h4 := encode_read4 a c hn
  have h8 := encode_read8 a c hn hlat1 hlat2
  have hw := encode_read4164 a c (by omega) hw2
  have hh := encode_read4168 a c (by omega) hh2
  have he := encode_read4172 a c hep
  have hwe := encode_read4180 a c hwp
  have hno := encode_read4188 a c hnp
  have hso := encode_read4196 a c hsp
  have hlu := encode_read4204 a c hlu1 hlu2
  have hcxr := encode_read4208 a c hcx
  have hcyr := encode_read4216 a c hcy
  have hlen : c.codes.length = 10 := by rw [hcodes]; rfl
  have hcd0 := encode_readCode a c 0 (by norm_num) hlen hcb
  have hcd1 := encode_readCode a c 1 (by norm_num) hlen hcb
  have hcd2 := encode_readCode a c 2 (by norm_num) hlen hcb
  have hcd3 := encode_readCode a c 3 (by norm_num) hlen hcb
  have hcd4 := encode_readCode a c 4 (by norm_num) hlen hcb
  have hcd5 := encode_readCode a c 5 (by norm_num) hlen hcb
  have hcd6 := encode_readCode a c 6 (by norm_num) hlen hcb
  have hcd7 := encode_readCode a c 7 (by norm_num) hlen hcb
  have hcd8 := encode_readCode a c 8 (by norm_num) hlen hcb
  have hcd9 := encode_readCode a c 9 (by norm_num) hlen hcb
  rw [hcodes] at hcd0 hcd1 hcd2 hcd3 hcd4 hcd5 hcd6 hcd7 hcd8 hcd9
  norm_num [List.getD] at hcd0 hcd1 hcd2 hcd3 hcd4 hcd5 hcd6 hcd7 hcd8 hcd9
  have hident : lcpIdentify (encodedFile (encode a c)) (encode a c).size = true := by
    rw [lcpIdentify_iff]
    refine ⟨?_, ?_, ?_, ?_, ?_⟩
    · show 50 ≤ 7316 + 2 * a.nBands * (a.width.toNat * a.height.toNat)
      omega
    · rw [h0]; split <;> simp
    · rw [h4]; split <;> simp
    · rw [h8]; exact hlat1
    · rw [h8]; exact hlat2
  have hBands : lcpBands (encodedFile (encode a c)) = a.nBands := by
    rw [lcpBands, h0, h4]
    rcases hn with h | h | h | h <;> rw [h] <;> simp [crownOf, groundOf]
  rw [lcpOpen]
  rw [if_neg (show ¬((!lcpIdentify (encodedFile (encode a c)) ((encode a c).size)) = true) by
    rw [hident]; simp)]
  rw [if_neg (show ¬((encode a c).size < 7316) by
    show ¬(7316 + 2 * a.nBands * (a.width.toNat * a.height.toNat) < 7316); omega)]
  rw [if_neg (show ¬(readS32 (encodedFile (encode a c)) 4164 < 1 ∨
      readS32 (encodedFile (encode a c)) 4168 < 1) by
    rw [hw, hh]; push_neg; exact ⟨hw1, hh1⟩)]
  rw [if_neg (show ¬(2147483647 / (2 * (lcpBands (encodedFile (encode a c)) : Int)) <
      readS32 (encodedFile (encode a c)) 4164) by
    rw [hBands, hw]; omega)]
  have hcrown : (!((if crownOf a.nBands then (21 : Int) else 20) == 20)) = crownOf a.nBands := by
    cases crownOf a.nBands <;> simp
  have hground : (!((if groundOf a.nBands then (21 : Int) else 20) == 20)) = groundOf a.nBands := by
    cases groundOf a.nBands <;> simp
  rw [h8, hlu, hw, hh, he, hwe, hno, hso, hcxr, hcyr,
    hcd0, hcd1, hcd2, hcd3, hcd4, hcd5, hcd6, hcd7, hcd8, hcd9, hBands, h0, h4,
    hcrown, hground]



/-- C1: for every source dataset with a valid band count and valid creation
options (here: a successful CreateCopy validation, a written latitude in
[-90, 90] — automatic when the LATITUDE option is supplied, and guaranteed by
the geographic transform otherwise — and C-int raster dimensions passing
Open's own checks), encoding the header with CreateCopy and decoding the
resulting file with Open reproduces the same two feature flags (crown-fuel
and ground-fuel presence, equivalently the band count), the same extent
(east/west/north/south double patterns), the same cell sizes, and the same
ten per-band unit/option codes. -/
theorem claim_C1 (a : CreateArgs) (r : EncodeResult)
    (h : createCopy a = some r)
    (hlat1 : -90 ≤ r.latWritten) (hlat2 : r.latWritten ≤ 90)
    (hw1 : 1 ≤ a.width) (hw2 : a.width < 2147483648)
    (hh1 : 1 ≤ a.height) (hh2 : a.height < 2147483648)
    (hov : a.width ≤ 2147483647 / (2 * (a.nBands : Int)))
    (hep : a.eastP < 18446744073709551616)
    (hwp : a.westP < 18446744073709551616)
    (hnp : a.northP < 18446744073709551616)
    (hsp : a.southP < 18446744073709551616)
    (hcx : a.cellXP < 18446744073709551616)
    (hcy : a.cellYP < 18446744073709551616) :
    ∃ info, lcpOpen (encodedFile r) r.size = some info ∧
      info.crown = crownOf a.nBands ∧ info.ground = groundOf a.nBands ∧
      info.nBands = a.nBands ∧
      info.eastP = a.eastP ∧ info.westP = a.westP ∧
      info.northP = a.northP ∧ info.southP = a.southP ∧
      info.cellXP = a.cellXP ∧ info.cellYP = a.cellYP ∧
      info.unitCodes = r.codes.map Int.toNat ∧
      info.latitude = r.latWritten ∧ info.linearUnit = r.linearUnits := by
  rw [createCopy] at h
  obtain ⟨c, hc, hec⟩ := Option.map_eq_some'.mp h
  subst hec
  have hinv := validate_inv a c hc
  obtain ⟨m0, m1, m2, m3, m4, m5, m6, m7, m8, p0, p1, p2, p3, p4, p5, p6, p7, p8, hcodes0⟩ :=
    validateUnits_inv a _ _ c.codes hinv.2.1
  have hcb := validateUnits_codes_bound a _ _ c.codes hinv.2.1
  have hlub := resolveLinearUnits_bound hinv.2.2.2.1
  have hmain := encode_lcpOpen a c m0 m1 m2 m3 m4 m5 m6 m7 m8
    (if groundOf a.nBands then 1 else 0) hinv.1 hcodes0 hcb hlat1 hlat2
    hlub.1 hlub.2 hw1 hw2 hh1 hh2 hov hep hwp hnp hsp hcx hcy
  refine ⟨_, hmain, rfl, rfl, rfl, rfl, rfl, rfl, rfl, rfl, rfl, ?_, rfl, rfl⟩
  show [m0.toNat, m1.toNat, m2.toNat, m3.toNat, m4.toNat, m5.toNat, m6.toNat, m7.toNat,
    m8.toNat, (if groundOf a.nBands then (1 : Int) else 0).toNat] = c.codes.map Int.toNat
  rw [hcodes0]
  rfl

/-- A concrete 5-band CreateCopy request for the C1 witness. -/
def argsC1 : CreateArgs :=
  CreateArgs.mk 5 true true 1 1 11 12 13 14 15 16
    none none none none none none none none none (some "METER") (some 40)
    false false false none none none
    (fun _ => 0) (fun _ => 0) (fun _ => 0) (fun _ _ => 0) none []

def resC1 : EncodeResult := (createCopy argsC1).getD (EncodeResult.mk [] 0 0 0 0 [] 0)

/-- Witness for C1 at the concrete request `argsC1`. -/
theorem claim_C1_witness :
    ∃ info, lcpOpen (encodedFile resC1) resC1.size = some info ∧
      info.crown = crownOf argsC1.nBands ∧ info.ground = groundOf argsC1.nBands ∧
      info.nBands = argsC1.nBands ∧
      info.eastP = argsC1.eastP ∧ info.westP = argsC1.westP ∧
      info.northP = argsC1.northP ∧ info.southP = argsC1.southP ∧
      info.cellXP = argsC1.cellXP ∧ info.cellYP = argsC1.cellYP ∧
      info.unitCodes = resC1.codes.map Int.toNat ∧
      info.latitude = resC1.latWritten ∧ info.linearUnit = resC1.linearUnits :=
  claim_C1 argsC1 resC1 (by rfl) (by decide) (by decide)
    (by decide) (by decide) (by decide) (by decide) (by decide)
    (by decide) (by decide) (by decide) (by decide) (by decide) (by decide)

end LCP
